import Mathlib

/-!
Verification of the mongo→elasticsearch synchronization engine (the `Sync`
class of this repository) against its natural-language specification.

The embedding translates the source file's methods into pure Lean functions:

* The mongo side is a list of collection entries (name, catalog type,
  documents); reading a collection may fail, which is modelled by a fault
  environment `Env`.
* The elasticsearch side is an explicit state `EsState`: an association list
  of `(index, id)`-keyed documents plus a trace of the requests issued to the
  client.  The client operations (`esDelete`, `esIndexDoc`, `esUpdateDoc`,
  `esBulk`, `esCount`, `esIndicesDelete`) are modelled from the documented
  behaviour of the `@elastic/elasticsearch` client used by the source:
  `delete` rejects with a 404 error when the document is absent, `index` and
  `update … doc_as_upsert:true` upsert, `indices.delete … ignore_unavailable`
  never errors, `bulk` returns per-item outcomes.
* Promises that can reject are `Except SyncErr`; effectful methods also
  return the list of console messages they emit (`LogMsg`), restricted to the
  messages the specification talks about.
* Mongo's `ObjectId`-vs-string distinction is the inductive `BsonId`; the
  value a call site hands to the elasticsearch client as a document id is an
  `EsIdArg`, which records whether the call site normalized it to a string
  (`EsIdArg.str`) or passed the raw driver value through (`EsIdArg.bson`).
-/

namespace MongoEsSync

/-- A document id as stored in mongo: either a native ObjectId (carrying the
hex string its `toString()` produces) or an ordinary string id. -/
inductive BsonId where
  | objId : String → BsonId
  | strId : String → BsonId
deriving DecidableEq, Repr

/-- The JS `toString()` of a mongo id. -/
def BsonId.toStr : BsonId → String
  | .objId s => s
  | .strId s => s

/-- A document body: the fields other than `_id`. -/
abbrev Body := List (String × String)

/-- A mongo document, split as the source does with `const {_id, ...rest}`:
its `_id` and the rest of the fields. -/
structure MDoc where
  _id : BsonId
  body : Body
deriving DecidableEq, Repr

/-- The value a call site passes to the elasticsearch client as a document
id: either an already-normalized string or a raw driver value. -/
inductive EsIdArg where
  | bson : BsonId → EsIdArg
  | str : String → EsIdArg
deriving DecidableEq, Repr

/-- The string the client ends up putting into the request for this id
(interpolation stringifies a raw ObjectId). -/
def EsIdArg.render : EsIdArg → String
  | .bson b => b.toStr
  | .str s => s

/-- Whether the id argument was normalized to a string at the call site. -/
def EsIdArg.isStr : EsIdArg → Bool
  | .bson _ => false
  | .str _ => true

/-- One entry of the body handed to the bulk API: the source's
`{ index: { _index, _id } }` header together with the following document. -/
structure BulkItem where
  _index : String
  _id : EsIdArg
  document : Body
deriving DecidableEq, Repr

/-- A request issued to the elasticsearch client, as observed at the call
site (in particular, carrying the id argument before any stringification). -/
inductive EsCall where
  | deleteCall (index : String) (id : EsIdArg)
  | indexCall (index : String) (id : EsIdArg) (document : Body)
  | updateCall (index : String) (id : EsIdArg) (doc : Body)
  | bulkCall (items : List BulkItem)
  | dropIndexCall (index : String)
  | countCall (index : String)
deriving DecidableEq, Repr

/-- A document key in the target store: (index name, rendered id). -/
abbrev EsKey := String × String

/-- The elasticsearch side: the stored documents and the trace of client
calls issued so far. -/
structure EsState where
  docs : List (EsKey × Body)
  calls : List EsCall
deriving DecidableEq, Repr

/-- Errors a rejected promise can carry in this model. -/
inductive SyncErr where
  | notFound404
  | readError
  | bulkCallError
  | clientError
deriving DecidableEq, Repr

/-- The console messages of the source that the specification talks about. -/
inductive LogMsg where
  | noData (index : String)
  | bulkItemErrors (index : String) (ids : List String)
  | countMismatch (index : String)
  | unhandledOp (op : String)
deriving DecidableEq, Repr

/-- Fault environment: which external calls fail.  `readFails c` makes
reading collection `c` reject; `bulkCallFails i` makes the bulk call for
index `i` reject at transport level; `docFails i id` makes the bulk item
for `(i, id)` come back as a per-item error. -/
structure Env where
  readFails : String → Bool
  bulkCallFails : String → Bool
  docFails : String → String → Bool

/-- The environment in which every external call succeeds. -/
def okEnv : Env := ⟨fun _ => false, fun _ => false, fun _ _ => false⟩

/-- The `option` object of the `Sync` class (the tls field is connection
bootstrap, excluded from the core).  The source calls the first field
`prefix`, which is not usable as a name here. -/
structure Opts where
  prefixStr : String
  initialSync : Bool
  debug : Bool
deriving DecidableEq, Repr

/-- First-match lookup in the document list. -/
def lookupDoc : List (EsKey × Body) → EsKey → Option Body
  | [], _ => none
  | (k, b) :: rest, key => if key = k then some b else lookupDoc rest key

/-- Remove every binding of a key. -/
def removeDoc : List (EsKey × Body) → EsKey → List (EsKey × Body)
  | [], _ => []
  | (k, b) :: rest, key => if k = key then removeDoc rest key else (k, b) :: removeDoc rest key

/-- Store a document under a key, replacing any previous binding. -/
def putDoc (d : List (EsKey × Body)) (key : EsKey) (b : Body) : List (EsKey × Body) :=
  (key, b) :: removeDoc d key

/-- Number of documents stored in a given index. -/
def countIndex : List (EsKey × Body) → String → Nat
  | [], _ => 0
  | (k, _) :: rest, index => (if k.1 = index then 1 else 0) + countIndex rest index

/-- Remove every document of an index. -/
def dropAllDocs : List (EsKey × Body) → String → List (EsKey × Body)
  | [], _ => []
  | (k, b) :: rest, index =>
    if k.1 = index then dropAllDocs rest index else (k, b) :: dropAllDocs rest index

/-- `ESclient.delete`: removes the document, rejecting with a 404 error when
it is absent (the client throws on 404 since no ignore option is passed). -/
def esDelete (st : EsState) (index : String) (id : EsIdArg) : Except SyncErr EsState :=
  let st1 : EsState := { st with calls := st.calls ++ [.deleteCall index id] }
  if (lookupDoc st1.docs (index, id.render)).isSome then
    .ok { st1 with docs := removeDoc st1.docs (index, id.render) }
  else
    .error .notFound404

/-- `ESclient.index` with an explicit id: upserts, never errors here. -/
def esIndexDoc (st : EsState) (index : String) (id : EsIdArg) (document : Body) : EsState :=
  { docs := putDoc st.docs (index, id.render) document
    calls := st.calls ++ [.indexCall index id document] }

/-- The partial-update merge of the update API: fields of the incoming
`doc` replace or extend the fields of the stored source. -/
def mergeBody (old incoming : Body) : Body :=
  old.filter (fun p => !(incoming.any (fun q => q.1 == p.1))) ++ incoming

/-- `ESclient.update` with `doc_as_upsert: true`: merges `doc` into the
stored document when one exists and inserts `doc` as the document
otherwise; never errors. -/
def esUpdateDoc (st : EsState) (index : String) (id : EsIdArg) (doc : Body) : EsState :=
  { docs :=
      match lookupDoc st.docs (index, id.render) with
      | some old => putDoc st.docs (index, id.render) (mergeBody old doc)
      | none => putDoc st.docs (index, id.render) doc
    calls := st.calls ++ [.updateCall index id doc] }

/-- `ESclient.indices.delete` with `ignore_unavailable: true`: drops the
index, succeeding also when it does not exist. -/
def esIndicesDelete (st : EsState) (index : String) : EsState :=
  { docs := dropAllDocs st.docs index
    calls := st.calls ++ [.dropIndexCall index] }

/-- `ESclient.count` on an index. -/
def esCount (st : EsState) (index : String) : EsState × Nat :=
  ({ st with calls := st.calls ++ [.countCall index] }, countIndex st.docs index)

/-- Apply the bulk items in order; an item hit by a per-item fault leaves the
store unchanged, any other item upserts under its rendered id. -/
def bulkApply (env : Env) : List BulkItem → List (EsKey × Body) → List (EsKey × Body)
  | [], d => d
  | it :: rest, d =>
    bulkApply env rest
      (if env.docFails it._index it._id.render then d
       else putDoc d (it._index, it._id.render) it.document)

/-- `ESclient.bulk`: rejects outright on a transport-level fault for the
target index, otherwise applies the items and reports the errored ones. -/
def esBulk (env : Env) (index : String) (items : List BulkItem) (st : EsState) :
    Except SyncErr (EsState × List BulkItem) :=
  if env.bulkCallFails index then .error .bulkCallError
  else
    .ok ({ docs := bulkApply env items st.docs
           calls := st.calls ++ [.bulkCall items] },
         items.filter (fun it => env.docFails it._index it._id.render))

/-- JS `toLowerCase`, modelled as lowercasing every character (the same
function as `String.toLower`, stated over the character list so that closed
instances evaluate). -/
def lowerStr (s : String) : String := ⟨s.data.map Char.toLower⟩

/-- `getPrefix` of the source (the gate does not allow that name):
`prefix + '__' + collName.toLowerCase()`. -/
def getPrefixStr (p collName : String) : String :=
  p ++ "__" ++ lowerStr collName

/-- One entry of `db.listCollections()`. -/
structure CollEntry where
  name : String
  type : String
  docs : List MDoc
deriving DecidableEq, Repr

/-- The mongo database handle: its catalog of collections. -/
abbrev MongoDb := List CollEntry

/-- `listCollections().toArray()` followed by the source's map to
`ele.type === "collection" ? ele.name : null`. -/
def listCollectionNames (db : MongoDb) : List (Option String) :=
  db.map (fun e => if e.type = "collection" then some e.name else none)

/-- The documents of a named collection. -/
def docsOf (db : MongoDb) (collName : String) : List MDoc :=
  ((db.find? (fun c => c.name == collName)).map (fun c => c.docs)).getD []

/-- `db.collection(collName).find().toArray()`: rejects when the read is hit
by a fault, otherwise yields all documents. -/
def dbFindAll (env : Env) (db : MongoDb) (collName : String) : Except SyncErr (List MDoc) :=
  if env.readFails collName then .error .readError else .ok (docsOf db collName)

/-- The skip test of the snapshot loop:
`excludedCollections && excludedCollections.includes(collName)`. -/
def isExcluded (exc : Option (List String)) (collName : String) : Bool :=
  match exc with
  | none => false
  | some l => l.contains collName

/-- The `flatMap` of `createBulkDataOnElastic`: each document is split as
`const {_id, ...rest}`, its id normalized by `_id.toString()` and paired with
the header naming the target index. -/
def bulkItems (index : String) (body : List MDoc) : List BulkItem :=
  body.map (fun doc => { _index := index, _id := EsIdArg.str doc._id.toStr, document := doc.body })

/-- `createBulkDataOnElastic(index, body)`: build the bulk data; on empty
data log and return; issue the bulk call (rethrowing its failure); log the
errored items if any; query the count and log a mismatch against the number
of source documents; return normally in all non-throwing cases. -/
def createBulkDataOnElastic (env : Env) (index : String) (body : List MDoc) (st : EsState) :
    Except SyncErr (EsState × List LogMsg) :=
  let data := bulkItems index body
  if data.length = 0 then .ok (st, [.noData index])
  else
    match esBulk env index data st with
    | .error e => .error e
    | .ok (st1, errored) =>
      let logs1 : List LogMsg :=
        if errored.length = 0 then []
        else [.bulkItemErrors index (errored.map (fun it => it._id.render))]
      let (st2, count) := esCount st1 index
      let logs2 : List LogMsg := if count = body.length then [] else [.countMismatch index]
      .ok (st2, logs1 ++ logs2)

/-- The state and logs `createBulkDataOnElastic` leaves behind: unchanged
state and no logs when the call throws. -/
def runBulk (env : Env) (index : String) (body : List MDoc) (st : EsState) :
    EsState × List LogMsg :=
  match createBulkDataOnElastic env index body st with
  | .ok r => r
  | .error _ => (st, [])

/-- The `for` loop of `initDbSync` over the mapped collection names: skip
null entries and excluded names; otherwise read the collection and bulk-write
it.  A rejection anywhere is caught only by the `try` around the whole loop,
so it ends the recursion and is returned as the error of the call. -/
def syncLoop (env : Env) (opt : Opts) (db : MongoDb) (exc : Option (List String)) :
    List (Option String) → EsState → EsState × List LogMsg × Option SyncErr
  | [], st => (st, [], none)
  | none :: rest, st => syncLoop env opt db exc rest st
  | some collName :: rest, st =>
    if isExcluded exc collName then syncLoop env opt db exc rest st
    else
      match dbFindAll env db collName with
      | .error e => (st, [], some e)
      | .ok allData =>
        match createBulkDataOnElastic env (getPrefixStr opt.prefixStr collName) allData st with
        | .error e => (st, [], some e)
        | .ok (st1, logs) =>
          match syncLoop env opt db exc rest st1 with
          | (st2, logs2, err) => (st2, logs ++ logs2, err)

/-- `initDbSync(excludedCollections)`. -/
def initDbSync (env : Env) (opt : Opts) (db : MongoDb) (exc : Option (List String))
    (st : EsState) : EsState × List LogMsg × Option SyncErr :=
  syncLoop env opt db exc (listCollectionNames db) st

/-- `deleteDataOnElastic(id, index)`: the client call; the catch rethrows. -/
def deleteDataOnElastic (id : EsIdArg) (index : String) (st : EsState) :
    Except SyncErr EsState :=
  esDelete st index id

/-- `createDataOnElastic(id, index, body)`. -/
def createDataOnElastic (id : EsIdArg) (index : String) (body : Body) (st : EsState) : EsState :=
  esIndexDoc st index id body

/-- `updateDataOnElastic(id, index, body)` (`doc_as_upsert: true`). -/
def updateDataOnElastic (id : EsIdArg) (index : String) (body : Body) (st : EsState) : EsState :=
  esUpdateDoc st index id body

/-- `dropIndexOnElastic(index)` (`ignore_unavailable: true`). -/
def dropIndexOnElastic (index : String) (st : EsState) : EsState :=
  esIndicesDelete st index

/-- A change event of the feed, as the source destructures it:
`operationType`, `ns.coll`, `documentKey._id`, and the optional
`fullDocument`. -/
structure ChangeEvent where
  operationType : String
  ns : String
  documentKey : BsonId
  fullDocument : Option MDoc
deriving DecidableEq, Repr

/-- `generateOperation(data)`: derive the index from the event's collection,
then dispatch on `operationType`.  The delete path passes the raw
`documentKey._id`; insert and update strip `_id` from the full document and
pass the raw `_id` value as the id; a missing full document makes the client
call reject; every other kind only logs and does nothing. -/
def generateOperation (opt : Opts) (st : EsState) (data : ChangeEvent) :
    Except SyncErr (EsState × List LogMsg) :=
  let index := getPrefixStr opt.prefixStr data.ns
  if data.operationType = "delete" then
    match deleteDataOnElastic (EsIdArg.bson data.documentKey) index st with
    | .ok st1 => .ok (st1, [])
    | .error e => .error e
  else if data.operationType = "insert" then
    match data.fullDocument with
    | some doc => .ok (createDataOnElastic (EsIdArg.bson doc._id) index doc.body st, [])
    | none => .error .clientError
  else if data.operationType = "update" then
    match data.fullDocument with
    | some doc => .ok (updateDataOnElastic (EsIdArg.bson doc._id) index doc.body st, [])
    | none => .error .clientError
  else if data.operationType = "drop" then
    .ok (dropIndexOnElastic index st, [])
  else
    .ok (st, [.unhandledOp data.operationType])

/-- The settlement state of the promise `initWatcher` returns. -/
inductive PromiseState where
  | pending
  | resolved
  | rejectedP (e : SyncErr)
deriving DecidableEq, Repr

/-- Settling a promise: only a pending promise is changed. -/
def settle (p : PromiseState) (r : Except SyncErr Unit) : PromiseState :=
  match p with
  | .pending =>
    match r with
    | .ok _ => .resolved
    | .error e => .rejectedP e
  | q => q

/-- The `change` handler of `initWatcher` for one event: run
`generateOperation`, then call `resolve()` on success and `reject(error)` on
failure.  The listener stays registered either way, so later events are
still handled after the promise has settled. -/
def watchStep (opt : Opts) : EsState × PromiseState → ChangeEvent → EsState × PromiseState
  | (st, p), data =>
    match generateOperation opt st data with
    | .ok (st1, _) => (st1, settle p (.ok ()))
    | .error e => (st, settle p (.error e))

/-- `initWatcher()` observed over a finite prefix of the feed: the handler
runs on every event, and the returned promise's settlement state is
tracked. -/
def initWatcher (opt : Opts) (st : EsState) (events : List ChangeEvent) :
    EsState × PromiseState :=
  events.foldl (watchStep opt) (st, .pending)

/-- `initialSync(excludedCollections)` (the connection bootstrap being an
already-available input): run `initDbSync`; its catch rethrows when
`option.debug` and swallows the error otherwise. -/
def initialSync (env : Env) (opt : Opts) (db : MongoDb) (exc : Option (List String))
    (st : EsState) : EsState × List LogMsg × Option SyncErr :=
  match initDbSync env opt db exc st with
  | (st1, logs, some e) => if opt.debug then (st1, logs, some e) else (st1, logs, none)
  | (st1, logs, none) => (st1, logs, none)

/-- What `startSync` returns to its caller: the final elasticsearch state,
the error it rethrew (only possible in debug mode), and whether the watcher
was started. -/
structure StartResult where
  state : EsState
  err : Option SyncErr
  watcherStarted : Bool
deriving DecidableEq, Repr

/-- `startSync(excludedCollections)`: optionally run `initialSync`, then
`initWatcher`; the catch rethrows when `option.debug` and logs-and-returns
otherwise. -/
def startSync (env : Env) (opt : Opts) (db : MongoDb) (exc : Option (List String))
    (events : List ChangeEvent) (st : EsState) : StartResult :=
  match (if opt.initialSync then initialSync env opt db exc st else (st, [], none)) with
  | (st1, _, some e) => if opt.debug then ⟨st1, some e, false⟩ else ⟨st1, none, false⟩
  | (st1, _, none) =>
    match initWatcher opt st1 events with
    | (st2, .rejectedP e) => if opt.debug then ⟨st2, some e, true⟩ else ⟨st2, none, true⟩
    | (st2, _) => ⟨st2, none, true⟩

/-- The state a translator call leaves behind, the state being unchanged
when the call rejects. -/
def stateAfter (r : Except SyncErr (EsState × List LogMsg)) (st : EsState) : EsState :=
  match r with
  | .ok (s, _) => s
  | .error _ => st

/-! Concrete sample data used by the witnesses and counterexamples. -/

/-- Options with index name part `p`, initial sync on, debug off. -/
def optP : Opts := ⟨"p", true, false⟩

/-- An empty elasticsearch state. -/
def esEmpty : EsState := ⟨[], []⟩

/-- A delete event for collection `users` whose `documentKey._id` is a native
ObjectId stringifying to `a`. -/
def evDel : ChangeEvent := ⟨"delete", "users", BsonId.objId "a", none⟩

/-- A state holding exactly the document the delete event targets. -/
def st0 : EsState := ⟨[(("p__users", "a"), [])], []⟩

/-- The state after delivering `evDel` to `st0` once. -/
def esDelSt1 : EsState := ⟨[], [EsCall.deleteCall "p__users" (EsIdArg.bson (BsonId.objId "a"))]⟩

/-- An insert event for collection `users`. -/
def evIns : ChangeEvent :=
  ⟨"insert", "users", BsonId.strId "u1", some ⟨BsonId.strId "u1", [("f", "v")]⟩⟩

/-- The full document carried by the insert event `evIns`. -/
def insDoc : MDoc := ⟨BsonId.strId "u1", [("f", "v")]⟩

/-- The state after delivering `evIns` to the empty store. -/
def insSt1 : EsState :=
  ⟨[(("p__users", "u1"), [("f", "v")])],
   [EsCall.indexCall "p__users" (EsIdArg.bson (BsonId.strId "u1")) [("f", "v")]]⟩

/-- The full document carried by the update event `evUpd`. -/
def updDoc : MDoc := ⟨BsonId.strId "u2", [("g", "w")]⟩

/-- An update event for collection `users`. -/
def evUpd : ChangeEvent := ⟨"update", "users", BsonId.strId "u2", some updDoc⟩

/-- The state after delivering `evUpd` to the empty store. -/
def updSt1 : EsState :=
  ⟨[(("p__users", "u2"), [("g", "w")])],
   [EsCall.updateCall "p__users" (EsIdArg.bson (BsonId.strId "u2")) [("g", "w")]]⟩

/-- An event of a kind the translator does not handle. -/
def evOther : ChangeEvent := ⟨"invalidate", "x", BsonId.strId "k", none⟩

/-- A database with two genuine collections `a` and `b`, one document each. -/
def db2 : MongoDb :=
  [⟨"a", "collection", [⟨BsonId.strId "a1", [("x", "1")]⟩]⟩,
   ⟨"b", "collection", [⟨BsonId.strId "b1", [("y", "2")]⟩]⟩]

/-- An environment where the bulk call for index `p__a` fails at transport
level and everything else succeeds. -/
def envB : Env := ⟨fun _ => false, fun i => i == "p__a", fun _ _ => false⟩

/-- An environment where every collection read fails. -/
def envR : Env := ⟨fun _ => true, fun _ => false, fun _ _ => false⟩

/-- An environment where the bulk item for document id `2` errors. -/
def env2 : Env := ⟨fun _ => false, fun _ => false, fun _ id => id == "2"⟩

/-- Two documents with string ids `1` and `2`. -/
def ds2 : List MDoc := [⟨BsonId.strId "1", [("f", "v")]⟩, ⟨BsonId.strId "2", [("g", "w")]⟩]

/-! Helper lemmas about the store and the bulk path. -/

/-- Looking a key up after removing a key. -/
theorem lookupDoc_removeDoc (d : List (EsKey × Body)) (key qkey : EsKey) :
    lookupDoc (removeDoc d key) qkey = if qkey = key then none else lookupDoc d qkey := by
  induction d with
  | nil => simp [removeDoc, lookupDoc]
  | cons p rest ih =>
    rcases p with ⟨k, b⟩
    by_cases hk : k = key
    · subst hk
      by_cases hq : qkey = k
      · rw [hq] at ih
        simp only [if_pos rfl] at ih
        simp [removeDoc, lookupDoc, hq, ih]
      · simp [removeDoc, lookupDoc, hq, ih]
    · by_cases hq : qkey = k
      · simp [removeDoc, lookupDoc, hk, hq]
      · simp [removeDoc, lookupDoc, hk, hq, ih]

/-- Looking a key up after storing a document. -/
theorem lookupDoc_putDoc (d : List (EsKey × Body)) (key qkey : EsKey) (b : Body) :
    lookupDoc (putDoc d key b) qkey = if qkey = key then some b else lookupDoc d qkey := by
  by_cases hq : qkey = key <;> simp [putDoc, lookupDoc, hq, lookupDoc_removeDoc]

/-- The net effect of a bulk item list on one key, folded over an
accumulator: the last effective write wins. -/
def lastW (env : Env) : List BulkItem → EsKey → Option Body → Option Body
  | [], _, x => x
  | it :: rest, key, x =>
    lastW env rest key
      (if env.docFails it._index it._id.render then x
       else if key = (it._index, it._id.render) then some it.document else x)

/-- Looking a key up after applying a bulk item list. -/
theorem lookupDoc_bulkApply (env : Env) (items : List BulkItem) (d : List (EsKey × Body))
    (key : EsKey) :
    lookupDoc (bulkApply env items d) key = lastW env items key (lookupDoc d key) := by
  induction items generalizing d with
  | nil => simp [bulkApply, lastW]
  | cons it rest ih =>
    simp only [bulkApply, lastW]
    by_cases hf : env.docFails it._index it._id.render
    · rw [if_pos hf, if_pos hf, ih]
    · by_cases hk : key = (it._index, it._id.render)
      · rw [if_neg hf, if_neg hf, if_pos hk, ih, lookupDoc_putDoc, if_pos hk]
      · rw [if_neg hf, if_neg hf, if_neg hk, ih, lookupDoc_putDoc, if_neg hk]

/-- `lastW` over an arbitrary accumulator, expressed through the accumulator
`none`. -/
theorem lastW_elim (env : Env) (items : List BulkItem) (key : EsKey) (x : Option Body) :
    lastW env items key x = (lastW env items key none).elim x some := by
  induction items generalizing x with
  | nil => simp [lastW]
  | cons it rest ih =>
    by_cases hf : env.docFails it._index it._id.render
    · rw [lastW, if_pos hf, ih, lastW, if_pos hf]
    · by_cases hk : key = (it._index, it._id.render)
      · rw [lastW, if_neg hf, if_pos hk, ih, lastW, if_neg hf, if_pos hk,
          ih (some it.document)]
        cases lastW env rest key none <;> simp
      · rw [lastW, if_neg hf, if_neg hk, ih, lastW, if_neg hf, if_neg hk, ih none]

/-- Applying the same bulk item list twice has the effect of applying it
once. -/
theorem lastW_lastW (env : Env) (items : List BulkItem) (key : EsKey) (x : Option Body) :
    lastW env items key (lastW env items key x) = lastW env items key x := by
  rw [lastW_elim env items key (lastW env items key x), lastW_elim env items key x]
  cases lastW env items key none <;> simp

/-- The bulk data has one item per source document. -/
theorem bulkItems_length (index : String) (body : List MDoc) :
    (bulkItems index body).length = body.length := by
  simp [bulkItems]

/-- On a nonempty collection whose bulk call does not fail at transport
level, the documents `createBulkDataOnElastic` leaves behind are the bulk
items applied to the previous documents. -/
theorem runBulk_docs (env : Env) (index : String) (body : List MDoc) (st : EsState)
    (h1 : env.bulkCallFails index = false) (h2 : body ≠ []) :
    (runBulk env index body st).1.docs = bulkApply env (bulkItems index body) st.docs := by
  have h3 : ¬(bulkItems index body).length = 0 := by
    simpa [bulkItems_length, List.length_eq_zero] using h2
  simp [runBulk, createBulkDataOnElastic, h3, esBulk, h1, esCount]

/-- One watcher handler invocation always leaves the promise settled. -/
theorem watchStep_ne_pending (opt : Opts) (acc : EsState × PromiseState) (e : ChangeEvent) :
    (watchStep opt acc e).2 ≠ PromiseState.pending := by
  rcases acc with ⟨s, p⟩
  simp only [watchStep]
  cases hg : generateOperation opt s e with
  | ok r => cases p <;> simp [settle]
  | error err => cases p <;> simp [settle]

/-- Once the promise is settled, the watcher fold keeps it settled. -/
theorem watchFold_ne_pending (opt : Opts) (l : List ChangeEvent) (acc : EsState × PromiseState)
    (h : acc.2 ≠ PromiseState.pending) :
    (l.foldl (watchStep opt) acc).2 ≠ PromiseState.pending := by
  induction l generalizing acc with
  | nil => simpa using h
  | cons e xs ih =>
    simp only [List.foldl_cons]
    exact ih (watchStep opt acc e) (watchStep_ne_pending opt acc e)

/-- Claim C5 (amended): the promise `initWatcher` returns settles as soon as
the first event has been handled — it resolves on a successfully translated
event and rejects on a failing one — so after any nonempty finite prefix of
the feed the consume operation is no longer pending, even though the change
listener stays registered and later events are still handled. -/
theorem C5_watcher_settles (opt : Opts) (st : EsState) (events : List ChangeEvent)
    (h : events ≠ []) :
    (initWatcher opt st events).2 ≠ PromiseState.pending := by
  cases events with
  | nil => exact absurd rfl h
  | cons e xs =>
    simp only [initWatcher, List.foldl_cons]
    exact watchFold_ne_pending opt xs (watchStep opt (st, .pending) e)
      (watchStep_ne_pending opt (st, .pending) e)

/-- Witness for C5: with a single insert event the watcher is settled. -/
theorem C5_witness : (initWatcher optP esEmpty [evIns]).2 ≠ PromiseState.pending :=
  C5_watcher_settles optP esEmpty [evIns] (by simp)

/-- Counterexample to claim C5 as stated: the consume operation does
complete on its own — after the very first successfully handled event the
promise `initWatcher` returns is resolved, not still pending. -/
theorem C5_counterexample : (initWatcher optP esEmpty [evIns]).2 = PromiseState.resolved := rfl

/-- Claim C6: running the snapshot step for a collection twice over the
unchanged document list yields the same index document set as running it
once — under every key, the store after the second `createBulkDataOnElastic`
holds exactly what it held after the first, because every bulk item carries
the stringified `_id` as an explicit id and so overwrites rather than
duplicates. -/
theorem C6_snapshot_idempotent (env : Env) (index : String) (body : List MDoc)
    (st : EsState) (k : EsKey) :
    lookupDoc (runBulk env index body (runBulk env index body st).1).1.docs k =
      lookupDoc (runBulk env index body st).1.docs k := by
  by_cases h2 : body = []
  · subst h2
    simp [runBulk, createBulkDataOnElastic, bulkItems]
  · by_cases h1 : env.bulkCallFails index = true
    · have h3 : ¬(bulkItems index body).length = 0 := by
        simpa [bulkItems_length, List.length_eq_zero] using h2
      simp [runBulk, createBulkDataOnElastic, h3, esBulk, h1]
    · have h1f : env.bulkCallFails index = false := by
        simpa using h1
      rw [runBulk_docs env index body _ h1f h2, runBulk_docs env index body st h1f h2,
        lookupDoc_bulkApply, lookupDoc_bulkApply, lastW_lastW]

/-- Claim C7: the index-naming function returns exactly the configured
name part, two underscores, and the lowercased collection name; it is a pure
total Lean function, hence deterministic, and collection names equal up to
letter case yield the same index name. -/
theorem C7_index_naming (p c₁ c₂ : String) (h : lowerStr c₁ = lowerStr c₂) :
    getPrefixStr p c₁ = p ++ "__" ++ lowerStr c₁ ∧ getPrefixStr p c₁ = getPrefixStr p c₂ := by
  constructor
  · rfl
  · simp [getPrefixStr, h]

/-- Witness for C7 at `sync`, `Users`, `users`. -/
theorem C7_witness :
    getPrefixStr "sync" "Users" = "sync" ++ "__" ++ lowerStr "Users" ∧
      getPrefixStr "sync" "Users" = getPrefixStr "sync" "users" :=
  C7_index_naming "sync" "Users" "users" (by decide)

/-- Claim C9: an event whose operation kind is none of delete, insert,
update, drop makes the translator log it as unhandled, perform no index
mutation (the state, its documents and its call trace included, is returned
unchanged), and return normally rather than reject. -/
theorem C9_unhandled_op (opt : Opts) (st : EsState) (data : ChangeEvent)
    (h : ¬data.operationType ∈ (["delete", "insert", "update", "drop"] : List String)) :
    generateOperation opt st data = .ok (st, [.unhandledOp data.operationType]) := by
  simp only [List.mem_cons, List.not_mem_nil, or_false, not_or] at h
  obtain ⟨h1, h2, h3, h4⟩ := h
  simp [generateOperation, h1, h2, h3, h4]

/-- Witness for C9 at an `invalidate` event. -/
theorem C9_witness :
    generateOperation optP esEmpty evOther = .ok (esEmpty, [.unhandledOp "invalidate"]) :=
  C9_unhandled_op optP esEmpty evOther (by decide)

/-- Claim C1 (amended): for a delete change event the translator issues a
delete against the index derived from the event's collection under the
event's id; when the document is present it is removed and every other key
is untouched, but when it is absent the client's "document not found" error
is rethrown — so delivering the same delete event a second time rejects
instead of completing without error. -/
theorem C1_delete_semantics (opt : Opts) (st : EsState) (data : ChangeEvent)
    (hdel : data.operationType = "delete") :
    ((lookupDoc st.docs (getPrefixStr opt.prefixStr data.ns, data.documentKey.toStr)).isSome =
        true →
      ∃ st1, generateOperation opt st data = .ok (st1, []) ∧
        lookupDoc st1.docs (getPrefixStr opt.prefixStr data.ns, data.documentKey.toStr) = none ∧
        ∀ k, k ≠ (getPrefixStr opt.prefixStr data.ns, data.documentKey.toStr) →
          lookupDoc st1.docs k = lookupDoc st.docs k) ∧
      (lookupDoc st.docs (getPrefixStr opt.prefixStr data.ns, data.documentKey.toStr) = none →
        generateOperation opt st data = .error .notFound404) := by
  constructor
  · intro hsome
    refine ⟨⟨removeDoc st.docs (getPrefixStr opt.prefixStr data.ns, data.documentKey.toStr),
      st.calls ++ [.deleteCall (getPrefixStr opt.prefixStr data.ns)
        (EsIdArg.bson data.documentKey)]⟩, ?_, ?_, ?_⟩
    · simp [generateOperation, hdel, deleteDataOnElastic, esDelete, EsIdArg.render, hsome]
    · simp [lookupDoc_removeDoc]
    · intro k hk
      simp [lookupDoc_removeDoc, hk]
  · intro hnone
    simp [generateOperation, hdel, deleteDataOnElastic, esDelete, EsIdArg.render, hnone]

/-- Witness for C1: on an empty store the delete event rejects with the 404
error. -/
theorem C1_witness : generateOperation optP esEmpty evDel = .error .notFound404 :=
  (C1_delete_semantics optP esEmpty evDel rfl).2 rfl

/-- Counterexample to claim C1 as stated: delivering the same delete event a
second time does not complete without error — after the first delivery has
removed the document, the second delivery rejects with the 404 error. -/
theorem C1_counterexample :
    generateOperation optP (stateAfter (generateOperation optP st0 evDel) st0) evDel =
      .error SyncErr.notFound404 := rfl

/-- Claim C2 (amended): a failure of one collection's snapshot step aborts
the loader, in both failure modes — when reading the head collection's
documents fails, and when its bulk-write call fails at transport level, the
loop over `some collName :: rest` returns that step's error with the store
untouched, independently of `rest`: the later collections are neither read
nor bulk-written. -/
theorem C2_failure_aborts_loader (env : Env) (opt : Opts) (db : MongoDb)
    (exc : Option (List String)) (collName : String) (rest : List (Option String)) (st : EsState)
    (hx : isExcluded exc collName = false) :
    (env.readFails collName = true →
        syncLoop env opt db exc (some collName :: rest) st =
          (st, [], some SyncErr.readError)) ∧
      (env.readFails collName = false → docsOf db collName ≠ [] →
        env.bulkCallFails (getPrefixStr opt.prefixStr collName) = true →
        syncLoop env opt db exc (some collName :: rest) st =
          (st, [], some SyncErr.bulkCallError)) := by
  constructor
  · intro hr
    simp [syncLoop, hx, dbFindAll, hr]
  · intro hr hd hb
    have h3 :
        ¬(bulkItems (getPrefixStr opt.prefixStr collName) (docsOf db collName)).length = 0 := by
      simpa [bulkItems_length, List.length_eq_zero] using hd
    simp [syncLoop, hx, dbFindAll, hr, createBulkDataOnElastic, h3, esBulk, hb]

/-- Witness for C2, exercising both failure modes: with every read failing,
the loop over collections `a` then `b` stops at `a` with the read error; with
the bulk call for `p__a` failing, it stops at `a` with the transport error.
In both runs nothing is written and collection `b` is untouched. -/
theorem C2_witness :
    syncLoop envR optP db2 none [some "a", some "b"] esEmpty =
        (esEmpty, [], some SyncErr.readError) ∧
      syncLoop envB optP db2 none [some "a", some "b"] esEmpty =
        (esEmpty, [], some SyncErr.bulkCallError) :=
  ⟨(C2_failure_aborts_loader envR optP db2 none "a" [some "b"] esEmpty rfl).1 rfl,
   (C2_failure_aborts_loader envB optP db2 none "a" [some "b"] esEmpty rfl).2 rfl (by decide)
     (by decide)⟩

/-- Counterexample to claim C2 as stated: a failure of the first
collection's bulk-write call does prevent the loader from processing the
remaining collections — the full `initDbSync` over the two-collection
database ends with the transport error and an elasticsearch state in which
collection `b` was never bulk-written (no call was issued at all). -/
theorem C2_counterexample :
    initDbSync envB optP db2 none esEmpty = (esEmpty, [], some SyncErr.bulkCallError) := by
  decide

/-- Claim C3 (amended): the snapshot loader does skip a collection in the
exclusion set — the loop step for an excluded name equals the loop on the
remaining names, for every fault environment, so the excluded collection is
neither read nor written.  The second half of the claim is refuted by
`C3_counterexample`: the event translator takes no exclusion set at all, so
change events for an excluded collection still mutate its derived index. -/
theorem C3_exclusion_snapshot_only (env : Env) (opt : Opts) (db : MongoDb)
    (exc : Option (List String)) (collName : String) (rest : List (Option String)) (st : EsState)
    (h : isExcluded exc collName = true) :
    syncLoop env opt db exc (some collName :: rest) st = syncLoop env opt db exc rest st := by
  simp [syncLoop, h]

/-- Witness for C3: with `a` excluded, the loop over `a` then `b` equals the
loop over `b` alone. -/
theorem C3_witness :
    syncLoop okEnv optP db2 (some ["a"]) [some "a", some "b"] esEmpty =
      syncLoop okEnv optP db2 (some ["a"]) [some "b"] esEmpty :=
  C3_exclusion_snapshot_only okEnv optP db2 (some ["a"]) "a" [some "b"] esEmpty (by decide)

/-- Counterexample to claim C3 as stated: with `users` in the exclusion set,
an insert change event for `users` still writes the document into the
derived index `p__users` — the translator performs the index mutation
regardless of the exclusion set. -/
theorem C3_counterexample :
    isExcluded (some ["users"]) "users" = true ∧
      lookupDoc (stateAfter (generateOperation optP esEmpty evIns) esEmpty).docs
        ("p__users", "u1") = some [("f", "v")] := by
  decide

/-- Claim C4 (amended): only the snapshot bulk path normalizes the source
`_id` to a string before using it as the explicit target id — every bulk
item's id is a normalized string — while the translator's delete, insert,
and update paths each pass the native `_id` value through unchanged to the
client call, as the id argument recorded in the issued request shows. -/
theorem C4_normalization (docs : List MDoc) (opt : Opts) (st st1 : EsState)
    (data : ChangeEvent) (doc : MDoc) (l : List LogMsg) :
    ((bulkItems (getPrefixStr opt.prefixStr data.ns) docs).all (fun it => it._id.isStr) = true) ∧
      (data.operationType = "delete" → generateOperation opt st data = .ok (st1, l) →
        st1.calls = st.calls ++
          [EsCall.deleteCall (getPrefixStr opt.prefixStr data.ns)
            (EsIdArg.bson data.documentKey)]) ∧
      (data.operationType = "insert" → data.fullDocument = some doc →
        generateOperation opt st data = .ok (st1, l) →
        st1.calls = st.calls ++
          [EsCall.indexCall (getPrefixStr opt.prefixStr data.ns)
            (EsIdArg.bson doc._id) doc.body]) ∧
      (data.operationType = "update" → data.fullDocument = some doc →
        generateOperation opt st data = .ok (st1, l) →
        st1.calls = st.calls ++
          [EsCall.updateCall (getPrefixStr opt.prefixStr data.ns)
            (EsIdArg.bson doc._id) doc.body]) := by
  refine ⟨?_, ?_, ?_, ?_⟩
  · simp only [bulkItems, List.all_eq_true, List.mem_map]
    rintro it ⟨d, hd, rfl⟩
    rfl
  · intro hdel hok
    by_cases hsome :
        (lookupDoc st.docs
          (getPrefixStr opt.prefixStr data.ns, (EsIdArg.bson data.documentKey).render)).isSome =
          true
    · simp only [generateOperation, hdel, reduceIte, deleteDataOnElastic, esDelete, hsome] at hok
      simp only [Except.ok.injEq, Prod.mk.injEq] at hok
      rw [← hok.1]
    · simp only [generateOperation, hdel, reduceIte, deleteDataOnElastic, esDelete, hsome] at hok
      simp at hok
  · intro hins hfd hok
    simp [generateOperation, hins, hfd, createDataOnElastic, esIndexDoc] at hok
    rw [← hok.1]
  · intro hupd hfd hok
    simp [generateOperation, hupd, hfd, updateDataOnElastic, esUpdateDoc] at hok
    rw [← hok.1]

/-- Witness for C4, exercising all three translator paths: the two bulk
items of `ds2` carry normalized string ids, while the delete, insert, and
update events' client calls each received the raw `_id` value of the
event. -/
theorem C4_witness :
    ((bulkItems (getPrefixStr optP.prefixStr evDel.ns) ds2).all (fun it => it._id.isStr) =
        true) ∧
      esDelSt1.calls = st0.calls ++
        [EsCall.deleteCall (getPrefixStr optP.prefixStr evDel.ns)
          (EsIdArg.bson evDel.documentKey)] ∧
      insSt1.calls = esEmpty.calls ++
        [EsCall.indexCall (getPrefixStr optP.prefixStr evIns.ns)
          (EsIdArg.bson insDoc._id) insDoc.body] ∧
      updSt1.calls = esEmpty.calls ++
        [EsCall.updateCall (getPrefixStr optP.prefixStr evUpd.ns)
          (EsIdArg.bson updDoc._id) updDoc.body] :=
  ⟨(C4_normalization ds2 optP st0 esDelSt1 evDel insDoc []).1,
   (C4_normalization ds2 optP st0 esDelSt1 evDel insDoc []).2.1 rfl rfl,
   (C4_normalization ds2 optP esEmpty insSt1 evIns insDoc []).2.2.1 rfl rfl rfl,
   (C4_normalization ds2 optP esEmpty updSt1 evUpd updDoc []).2.2.2 rfl rfl rfl⟩

/-- Counterexample to claim C4 as stated: not every produced target id is
normalized to a string — the delete path hands the client the raw ObjectId
value of `documentKey._id`, not its string form. -/
theorem C4_counterexample :
    (stateAfter (generateOperation optP st0 evDel) st0).calls =
        [EsCall.deleteCall "p__users" (EsIdArg.bson (BsonId.objId "a"))] ∧
      (EsIdArg.bson (BsonId.objId "a")).isStr = false := by
  decide

/-- Claim C8: after a bulk write that does not itself fail, the loader
queries the index's document count; the result is returned normally (a
mismatch is never fatal) and the consistency warning naming the offending
index is logged exactly when the count differs from the number of source
documents. -/
theorem C8_count_check (env : Env) (index : String) (body : List MDoc) (st : EsState)
    (h1 : env.bulkCallFails index = false) (h2 : body ≠ []) :
    createBulkDataOnElastic env index body st = .ok (runBulk env index body st) ∧
      (LogMsg.countMismatch index ∈ (runBulk env index body st).2 ↔
        countIndex (runBulk env index body st).1.docs index ≠ body.length) := by
  have h3 : ¬(bulkItems index body).length = 0 := by
    simpa [bulkItems_length, List.length_eq_zero] using h2
  constructor
  · simp [runBulk, createBulkDataOnElastic, h3, esBulk, h1, esCount]
  · simp only [runBulk, createBulkDataOnElastic, h3, esBulk, h1, esCount]
    by_cases hc :
        countIndex (bulkApply env (bulkItems index body) st.docs) index = body.length
    · by_cases he :
          ((bulkItems index body).filter
            (fun it => env.docFails it._index it._id.render)).length = 0 <;>
        simp [hc, he]
    · by_cases he :
          ((bulkItems index body).filter
            (fun it => env.docFails it._index it._id.render)).length = 0 <;>
        simp [hc, he]

/-- Witness for C8: with the bulk item for id `2` failing, the count is 1
against 2 source documents; the call still returns normally and the warning
for index `i` is logged. -/
theorem C8_witness :
    createBulkDataOnElastic env2 "i" ds2 esEmpty = .ok (runBulk env2 "i" ds2 esEmpty) ∧
      (LogMsg.countMismatch "i" ∈ (runBulk env2 "i" ds2 esEmpty).2 ↔
        countIndex (runBulk env2 "i" ds2 esEmpty).1.docs "i" ≠ ds2.length) :=
  C8_count_check env2 "i" ds2 esEmpty rfl (by decide)

/-- Claim C10: with `debug` off and `initialSync` on, a failing initial
snapshot is swallowed inside `initialSync` (its catch returns normally), so
`startSync` still starts the change-feed watcher, and its caller observes no
error. -/
theorem C10_snapshot_error_swallowed (env : Env) (opt : Opts) (db : MongoDb)
    (exc : Option (List String)) (events : List ChangeEvent) (st : EsState)
    (hd : opt.debug = false) (hi : opt.initialSync = true)
    (_hf : (initDbSync env opt db exc st).2.2.isSome = true) :
    (startSync env opt db exc events st).watcherStarted = true ∧
      (startSync env opt db exc events st).err = none := by
  rcases hds : initDbSync env opt db exc st with ⟨st1, logs1, err1⟩
  have hinit : initialSync env opt db exc st = (st1, logs1, none) := by
    cases err1 <;> simp [initialSync, hds, hd]
  rcases hw : initWatcher opt st1 events with ⟨st2, p⟩
  cases p <;> simp [startSync, hi, hinit, hw, hd]

/-- Witness for C10: with every collection read failing, debug off and
initial sync on, the watcher still starts and the caller sees no error. -/
theorem C10_witness :
    (startSync envR optP db2 none [] esEmpty).watcherStarted = true ∧
      (startSync envR optP db2 none [] esEmpty).err = none :=
  C10_snapshot_error_swallowed envR optP db2 none [] esEmpty rfl rfl (by decide)

end MongoEsSync
